import Mathlib

/-!
Shallow embedding of the theme-resolution core of the svg-term command line
tool (src/cli.ts).  JavaScript values that may be `undefined`, `null` or a
string are modelled by the tri-state type `JSVal`; the process environment,
the filesystem and the external collaborators (term-schemes parsers, plist
builder) are passed explicitly as a `World`, so every function of the
embedding is a pure function of its inputs.  Fallible code returns
`Except CliError`.
-/

namespace SvgTerm

/-- A JavaScript value as it flows through the resolution code: either
`undefined`, `null`, or a string.  Flag values, environment variables and
the results of the guessing functions all inhabit this type. -/
inductive JSVal where
  | undef
  | null
  | str (s : String)
deriving DecidableEq

/-- JavaScript truthiness for `JSVal`: `undefined`, `null` and the empty
string are falsy, every other string is truthy. -/
def JSVal.truthy : JSVal → Bool
  | .undef => false
  | .null => false
  | .str s => if s = "" then false else true

/-- The JavaScript `a || b` operator on `JSVal`. -/
def JSVal.orElse (a b : JSVal) : JSVal := if a.truthy then a else b

/-- JavaScript string coercion (`String(v)`, property-key coercion):
`undefined` becomes "undefined", `null` becomes "null". -/
def JSVal.asString : JSVal → String
  | .undef => "undefined"
  | .null => "null"
  | .str s => s

/-- The process environment consumed by the detector: the platform
identifier (`os.platform()`) and the TERM_PROGRAM variable. -/
structure OsEnv where
  platform : String
  termProgram : JSVal
deriving DecidableEq

/-- A raw theme blob stored inside a preference container (an opaque value
handed to `plist.build` and then to a parser). -/
abbrev RawTheme := String

/-- The parsed contents of a terminal preference plist, restricted to the
three keys the source reads: `Window Settings`, `Custom Color Presets` and
`Default Window Settings`.  A missing key is `none` / `JSVal.undef`,
matching JavaScript property access on a plain object. -/
structure PlistConfig where
  windowSettings : Option (List (String × RawTheme))
  customColorPresets : Option (List (String × RawTheme))
  defaultWindowSettings : JSVal
deriving DecidableEq

/-- The two terminals whose preference containers the tool can introspect
(the `DetectableTerminals` enum of the source). -/
inductive DetectableTerminals where
  | iterm2
  | terminal
deriving DecidableEq

/-- A snapshot of the filesystem state visible to one invocation:
the working directory, `fs.existsSync`, `fs.readFileSync` (with `none`
modelling a read that throws), and the parsed preference container for
each detectable terminal (`none` modelling a failing read or plist
parse, which throws in the source). -/
structure FS where
  cwd : String
  existsSync : String → Bool
  readFile : String → Option String
  config : DetectableTerminals → Option PlistConfig

/-- Modelled from the spec: the canonical theme produced by the external
term-schemes parsers (spec section 3) — foreground, background and the 16
ANSI palette entries.  Its internal structure is never inspected by the
resolution code, so colours are abstract strings. -/
structure TermScheme where
  foreground : String
  background : String
  ansi : List String
deriving DecidableEq

/-- Modelled from the spec: the closed set of parser functions exported by
the external term-schemes package (spec section 4.3).  Each value names the
parser the dispatcher returns for one scheme format; `xfce` is the parser
the source returns for the scheme name spelled `xcfe`. -/
inductive ParserFn where
  | iterm2
  | konsole
  | remmina
  | terminal
  | terminator
  | termite
  | tilda
  | xfce
  | xresources
  | xterm
deriving DecidableEq

/-- Everything one invocation of the tool can observe: the environment, the
filesystem snapshot, the already-fetched recording text (the result of
`getInput`; the empty string is falsy), and the external collaborators —
the term-schemes parsers (`parse`, which may fail with a parse error) and
the plist builder (`plistBuild`). -/
structure World where
  env : OsEnv
  fs : FS
  inputText : String
  parse : ParserFn → String → Except String TermScheme
  plistBuild : RawTheme → String

/-- The errors an invocation can surface: `usage` is an error created by
`cliError` in `main` (it carries the help text and makes the process exit
non-zero), `thrown` is a plain thrown `Error` or `TypeError` (from
`getParser`, a parser, or a failing filesystem read). -/
inductive CliError where
  | usage (msg : String)
  | thrown (msg : String)
deriving DecidableEq

instance {ε α : Type} [DecidableEq ε] [DecidableEq α] : DecidableEq (Except ε α) := fun a b =>
  match a, b with
  | .ok x, .ok y =>
    if h : x = y then .isTrue (by rw [h]) else .isFalse (by simp [h])
  | .ok _, .error _ => .isFalse (by simp)
  | .error _, .ok _ => .isFalse (by simp)
  | .error x, .error y =>
    if h : x = y then .isTrue (by rw [h]) else .isFalse (by simp [h])

/-- String.charAt(0): the first character of a string as a string; the
empty string for the empty string. -/
def charAt0 (p : String) : String :=
  match p.data with
  | [] => ""
  | c :: _ => String.mk [c]

/-- Array.prototype.join with a separator, on a list of strings. -/
def joinWith (sep : String) : List String → String
  | [] => ""
  | [s] => s
  | s :: t :: rest => s ++ sep ++ joinWith sep (t :: rest)

/-- Splits a character list on the slash character (every slash is a
separator; adjacent slashes produce empty segments). -/
def splitOnSlash : List Char → List (List Char)
  | [] => [[]]
  | c :: rest =>
    if c = '/' then [] :: splitOnSlash rest
    else
      match splitOnSlash rest with
      | [] => [[c]]
      | seg :: segs => (c :: seg) :: segs

/-- One step of path normalisation: drops empty and `.` segments and
resolves `..` against the (reversed) stack of segments kept so far. -/
def normStep (isAbs : Bool) (acc : List (List Char)) (seg : List Char) : List (List Char) :=
  if seg = [] ∨ seg = ['.'] then acc
  else if seg = ['.', '.'] then
    match acc with
    | [] => if isAbs then [] else [seg]
    | top :: rest => if top = ['.', '.'] then seg :: acc else rest
  else seg :: acc

/-- Joins path segments with slashes. -/
def joinSegs : List (List Char) → List Char
  | [] => []
  | [s] => s
  | s :: t :: rest => s ++ '/' :: joinSegs (t :: rest)

/-- Model of Node `path.join(a, b)` as used at cli.ts line 109: the two
segments are concatenated with a separator and the result is normalised
(empty and `.` segments dropped, `..` resolved); a second segment that is
an absolute path is NOT treated specially — it is appended like any other
segment. -/
def pathJoin (a b : String) : String :=
  let joined := if a = "" then b else if b = "" then a else a ++ "/" ++ b
  if joined = "" then "."
  else
    let cs := joined.data
    let isAbs := match cs with
      | '/' :: _ => true
      | _ => false
    let segs := ((splitOnSlash cs).foldl (normStep isAbs) []).reverse
    let body := joinSegs segs
    if isAbs then String.mk ('/' :: body)
    else if body = [] then "."
    else String.mk body

/-- The leading decimal digits of a character list. -/
def leadingDigits : List Char → List Char
  | [] => []
  | c :: rest => if c.isDigit then c :: leadingDigits rest else []

/-- Model of JavaScript `parseInt(s, 10)` as used for the width and height
flags: skips leading spaces, accepts an optional sign, parses the leading
run of decimal digits, and is NaN (`none`) when no digit is present. -/
def jsParseInt (s : String) : Option Int :=
  let cs := s.data.dropWhile (· = ' ')
  let signAndRest : Bool × List Char :=
    match cs with
    | '-' :: r => (true, r)
    | '+' :: r => (false, r)
    | r => (false, r)
  let ds := leadingDigits signAndRest.2
  if ds = [] then none
  else
    let n : Nat := ds.foldl (fun acc c => acc * 10 + (c.toNat - 48)) 0
    some (if signAndRest.1 then -(n : Int) else (n : Int))

/-- JavaScript property lookup `obj[key]` on an object modelled as an
association list (object keys are unique, so the first match decides). -/
def jsLookup (m : List (String × RawTheme)) (key : String) : Option RawTheme :=
  match m with
  | [] => none
  | (k, v) :: rest => if k = key then some v else jsLookup rest key

/-- Embedding of `guessTerminal` (cli.ts lines 196-209): on a platform
other than darwin the function returns early with `undefined`; on darwin
it maps TERM_PROGRAM through a fixed table, returning the enum value
(its string) for the two known programs and `null` otherwise. -/
def guessTerminal (env : OsEnv) : JSVal :=
  if env.platform ≠ "darwin" then .undef
  else
    match env.termProgram with
    | .str "iTerm.app" => .str "iterm2"
    | .str "Apple_Terminal" => .str "terminal"
    | _ => .null

/-- Embedding of `getConfig` (cli.ts lines 143-156): for the two
detectable terminals it reads and parses the well-known plist under the
home directory (a failing read or parse throws); for any other term the
default branch returns `null` (here `none`). -/
def getConfig (fs : FS) (term : JSVal) : Except CliError (Option PlistConfig) :=
  if term = JSVal.str "terminal" then
    match fs.config .terminal with
    | some c => .ok (some c)
    | none => .error (.thrown "ENOENT: Library/Preferences/com.apple.terminal.plist")
  else if term = JSVal.str "iterm2" then
    match fs.config .iterm2 with
    | some c => .ok (some c)
    | none => .error (.thrown "ENOENT: Library/Preferences/com.googlecode.iterm2.plist")
  else .ok none

/-- Embedding of `getPresets` (cli.ts lines 158-171): reads the config and
projects the presets collection — `Window Settings` for the terminal kind,
`Custom Color Presets` for iterm2, `null` otherwise.  Projecting out of a
`null` config would throw in JavaScript. -/
def getPresets (fs : FS) (term : JSVal) : Except CliError (Option (List (String × RawTheme))) :=
  match getConfig fs term with
  | .error e => .error e
  | .ok cfg =>
    if term = JSVal.str "terminal" then
      match cfg with
      | some c => .ok c.windowSettings
      | none => .error (.thrown "TypeError: Cannot read properties of null")
    else if term = JSVal.str "iterm2" then
      match cfg with
      | some c => .ok c.customColorPresets
      | none => .error (.thrown "TypeError: Cannot read properties of null")
    else .ok none

/-- Embedding of `guessProfile` (cli.ts lines 173-194): `null` off darwin
and for a falsy config; for the terminal kind it returns the
`Default Window Settings` entry.  The iterm2 case of the source computes
the `Custom Color Presets` collection and then falls through to the
default branch without reading a default-name field, so it returns `null`
exactly like the default branch. -/
def guessProfile (env : OsEnv) (fs : FS) (term : JSVal) : Except CliError JSVal :=
  if env.platform ≠ "darwin" then .ok .null
  else
    match getConfig fs term with
    | .error e => .error e
    | .ok none => .ok .null
    | .ok (some c) =>
      if term = JSVal.str "terminal" then .ok c.defaultWindowSettings
      else .ok .null

/-- Modelled from the spec: the member names of the `TermSchemes`
enumeration of the external term-schemes package, used by the
`term in TermSchemes` validation in `main`.  Spec section 3 lists the
supported scheme formats (at least iterm2, xresources, xrdb, terminator,
konsole, terminal, remmina, termite, tilda, xfce, xterm); the source help
text and `getParser` spell the xfce format `xcfe`. -/
def termSchemesKeys : List String :=
  ["iterm2", "xrdb", "xresources", "terminator", "konsole", "terminal",
   "remmina", "termite", "tilda", "xcfe", "xterm"]

/-- The closed set of scheme-format strings for which `getParser`
(cli.ts lines 220-245) has a case: the string values of the ten
`TermSchemes` members it matches on. -/
def schemeFormats : List String :=
  ["iterm2", "konsole", "remmina", "terminal", "terminator", "termite",
   "tilda", "xcfe", "xresources", "xterm"]

/-- Embedding of `getParser` (cli.ts lines 220-245): a closed dispatch
from the scheme-format string to the parser function; the default branch
throws a plain Error naming the unknown term. -/
def getParser (term : String) : Except CliError ParserFn :=
  if term = "iterm2" then .ok .iterm2
  else if term = "konsole" then .ok .konsole
  else if term = "remmina" then .ok .remmina
  else if term = "terminal" then .ok .terminal
  else if term = "terminator" then .ok .terminator
  else if term = "termite" then .ok .termite
  else if term = "tilda" then .ok .tilda
  else if term = "xcfe" then .ok .xfce
  else if term = "xresources" then .ok .xresources
  else if term = "xterm" then .ok .xterm
  else .error (.thrown ("unknown term parser: " ++ term))

/-- Embedding of `parseTheme` (cli.ts lines 260-263): obtains the parser
for the term, reads the file at the input path (the read throws when the
file is missing), and applies the parser to its contents. -/
def parseTheme (w : World) (term input : JSVal) : Except CliError TermScheme :=
  match getParser term.asString with
  | .error e => .error e
  | .ok parser =>
    match w.fs.readFile input.asString with
    | none => .error (.thrown ("ENOENT: no such file or directory " ++ input.asString))
    | some contents =>
      match w.parse parser contents with
      | .ok t => .ok t
      | .error msg => .error (.thrown msg)

/-- Embedding of `extractTheme` (cli.ts lines 265-291): `null` when the
term is not a detectable terminal or the platform is not darwin; otherwise
it reads the presets collection (subscripting an undefined collection
throws), looks the preset name up, obtains the parser, returns `null` for
a missing preset, and otherwise builds a plist from the blob and parses
it. -/
def extractTheme (w : World) (term name : JSVal) : Except CliError (Option TermScheme) :=
  if ¬(term.asString = "iterm2" ∨ term.asString = "terminal") then .ok none
  else if w.env.platform ≠ "darwin" then .ok none
  else
    match getPresets w.fs term with
    | .error e => .error e
    | .ok none => .error (.thrown "TypeError: Cannot read properties of undefined")
    | .ok (some presets) =>
      let theme := jsLookup presets name.asString
      match getParser term.asString with
      | .error e => .error e
      | .ok parser =>
        match theme with
        | none => .ok none
        | some blob =>
          if term = JSVal.str "iterm2" then
            match w.parse parser (w.plistBuild blob) with
            | .ok t => .ok (some t)
            | .error msg => .error (.thrown msg)
          else if term = JSVal.str "terminal" then
            match w.parse parser (w.plistBuild blob) with
            | .ok t => .ok (some t)
            | .error msg => .error (.thrown msg)
          else .ok none

/-- The file-path test of cli.ts lines 106 and 253: the first character of
the profile is `~`, `/` or `.`. -/
def isFileProfile (p : String) : Bool :=
  decide (charAt0 p = "~" ∨ charAt0 p = "/" ∨ charAt0 p = ".")

/-- The resolved term/profile pair built by `main` (the `guess` object). -/
structure Guesses where
  term : JSVal
  profile : JSVal
deriving DecidableEq

/-- Embedding of `getTheme` (cli.ts lines 247-258): `null` when the term
or the profile is the JavaScript `null`; otherwise the profile (defaulted
to the empty string when falsy) selects between parsing a theme file and
extracting a named preset. -/
def getTheme (w : World) (guess : Guesses) : Except CliError (Option TermScheme) :=
  if guess.term = JSVal.null ∨ guess.profile = JSVal.null then .ok none
  else
    let p := (JSVal.orElse guess.profile (JSVal.str "")).asString
    if isFileProfile p then
      match parseTheme w guess.term guess.profile with
      | .ok t => .ok (some t)
      | .error e => .error e
    else extractTheme w guess.term guess.profile

/-- The spec notion of a theme source (spec section 3): where the resolved
theme comes from. -/
inductive ThemeSource where
  | filePath (format : String) (path : String)
  | namedPreset (term : String) (name : String)
  | noTheme
deriving DecidableEq

/-- The source-selection decision of `getTheme` (cli.ts lines 248-257),
abstracted to a `ThemeSource`: a JavaScript-null term or profile yields no
theme, a profile whose first character is `~`, `/` or `.` is a file path
parsed with the parser for the term, and any other profile is a named
preset keyed by the term. -/
def themeSourceOf (guess : Guesses) : ThemeSource :=
  if guess.term = JSVal.null ∨ guess.profile = JSVal.null then .noTheme
  else
    let p := (JSVal.orElse guess.profile (JSVal.str "")).asString
    if isFileProfile p then .filePath guess.term.asString guess.profile.asString
    else .namedPreset guess.term.asString guess.profile.asString

/-- The command-line flags consumed by the resolution core, as parsed by
meow: `none` means the flag was not supplied. -/
structure Flags where
  term : Option String := none
  profile : Option String := none
  height : Option String := none
  width : Option String := none
  cast : Option String := none
  out : Option String := none
  frame : Bool := false
deriving DecidableEq

/-- The value of a flag as a JavaScript value: `undefined` when absent. -/
def flagVal : Option String → JSVal
  | none => JSVal.undef
  | some s => JSVal.str s

/-- Embedding of cli.ts lines 76-82: the resolved guess.  The detected
terminal, when truthy, wins over the explicit term flag; when the resolved
term is truthy the guessed profile, when truthy, wins over the explicit
profile flag. -/
def resolveGuess (w : World) (flags : Flags) : Except CliError Guesses :=
  let term := JSVal.orElse (guessTerminal w.env) (flagVal flags.term)
  if term.truthy then
    match guessProfile w.env w.fs term with
    | .error e => .error e
    | .ok gp => .ok ⟨term, JSVal.orElse gp (flagVal flags.profile)⟩
  else .ok ⟨term, flagVal flags.profile⟩

/-- The check one flag contributes to the `ensure(['height','width'], ...)`
validation of cli.ts lines 62-70: a supplied flag whose value does not
parse as a number produces a TypeError message. -/
def numberCheck (name : String) (v : Option String) : Option String :=
  match v with
  | none => none
  | some val =>
    if (jsParseInt val).isNone then
      some (name ++ " expected to be number, received \"" ++ val ++ "\"")
    else none

/-- The malformed-flag messages collected at cli.ts lines 62-70, in the
source order height, width. -/
def malformedMsgs (flags : Flags) : List String :=
  (numberCheck "height" flags.height).toList ++ (numberCheck "width" flags.width).toList

/-- The `unsatisfied` list of cli.ts line 85:
`['term', 'profile'].filter(n => !Boolean(guess[n]))`. -/
def unsatisfiedOf (guess : Guesses) : List String :=
  (if guess.term.truthy then [] else ["term"]) ++
  (if guess.profile.truthy then [] else ["profile"])

/-- Embedding of cli.ts lines 84-115, the part of `main` after the guess
is resolved: the term/profile pair check, the unknown-term check, the
file-profile existence check (against the profile flag joined onto the
working directory), and finally the `getTheme` call handed to the
renderer. -/
def mainChecks (w : World) (flags : Flags) (guess : Guesses) :
    Except CliError (Option TermScheme) :=
  if (flags.term.isSome ∨ flags.profile.isSome) ∧ unsatisfiedOf guess ≠ [] then
    .error (.usage ("svg-term: --term and --profile must be used together, " ++
      joinWith ", " (unsatisfiedOf guess) ++ " missing"))
  else if flags.term.isSome ∧ ¬(flags.term.getD "" ∈ termSchemesKeys) then
    .error (.usage ("svg-term: term expected to be one of " ++
      joinWith ", " termSchemesKeys ++ ", received \"" ++ flags.term.getD "" ++ "\""))
  else
    let p := (JSVal.orElse guess.profile (JSVal.str "")).asString
    if isFileProfile p ∧ flags.profile.isSome ∧
        ¬ w.fs.existsSync (pathJoin w.fs.cwd (flags.profile.getD "")) then
      .error (.usage ("svg-term: " ++ flags.profile.getD "" ++
        " must be readable file but was not found"))
    else getTheme w guess

/-- Embedding of the resolution part of `main` (cli.ts lines 54-115): the
input check, the height/width validation, the guess resolution of lines
76-82, and the checks and theme resolution of `mainChecks`. -/
def mainResolve (w : World) (flags : Flags) : Except CliError (Option TermScheme) :=
  if w.inputText = "" then
    .error (.usage "svg-term: either stdin or --cast are required")
  else if malformedMsgs flags ≠ [] then
    .error (.usage ("svg-term: " ++ joinWith "\n" (malformedMsgs flags)))
  else
    match resolveGuess w flags with
    | .error e => .error e
    | .ok guess => mainChecks w flags guess

/-- A sample preference container: presets `Basic` (terminal) and
`Solarized` (iterm2), default window settings `Basic`. -/
def cfgSample : PlistConfig :=
  ⟨some [("Basic", "blobTerminal")], some [("Solarized", "blobITerm")], .str "Basic"⟩

/-- A sample darwin filesystem: both preference containers readable, no
other file exists. -/
def fsDarwin : FS :=
  { cwd := "/home/user"
    existsSync := fun _ => false
    readFile := fun _ => none
    config := fun _ => some cfgSample }

/-- A sample canonical theme, the fixed output of the sample parsers. -/
def schemeSample : TermScheme :=
  ⟨"#ffffff", "#000000", List.replicate 16 "#808080"⟩

/-- A darwin invocation inside Apple Terminal. -/
def wTerminalApp : World :=
  { env := ⟨"darwin", .str "Apple_Terminal"⟩
    fs := fsDarwin
    inputText := "rec"
    parse := fun _ _ => .ok schemeSample
    plistBuild := fun b => b }

/-- A darwin invocation inside iTerm2. -/
def wITermApp : World :=
  { env := ⟨"darwin", .str "iTerm.app"⟩
    fs := fsDarwin
    inputText := "rec"
    parse := fun _ _ => .ok schemeSample
    plistBuild := fun b => b }

/-- A linux filesystem on which no file exists at all. -/
def fsLinux : FS :=
  { cwd := "/home/user"
    existsSync := fun _ => false
    readFile := fun _ => none
    config := fun _ => none }

/-- A linux invocation (TERM_PROGRAM even set to iTerm.app). -/
def wLinux : World :=
  { env := ⟨"linux", .str "iTerm.app"⟩
    fs := fsLinux
    inputText := "rec"
    parse := fun _ _ => .ok schemeSample
    plistBuild := fun b => b }

/-- A linux filesystem on which exactly the absolute path
`/tmp/theme.txt` exists and is readable. -/
def fsAbsFile : FS :=
  { cwd := "/home/user"
    existsSync := fun p => decide (p = "/tmp/theme.txt")
    readFile := fun p => if p = "/tmp/theme.txt" then some "theme file contents" else none
    config := fun _ => none }

/-- A linux invocation over `fsAbsFile`. -/
def wAbsFile : World :=
  { env := ⟨"linux", .undef⟩
    fs := fsAbsFile
    inputText := "rec"
    parse := fun _ _ => .ok schemeSample
    plistBuild := fun b => b }

theorem orElse_falsy (a b : JSVal) (h : a.truthy = false) : JSVal.orElse a b = b := by
  simp [JSVal.orElse, h]

theorem orElse_truthy (a b : JSVal) (h : a.truthy = true) : JSVal.orElse a b = a := by
  simp [JSVal.orElse, h]

theorem guessTerminal_not_darwin (env : OsEnv) (h : env.platform ≠ "darwin") :
    guessTerminal env = JSVal.undef := by
  simp [guessTerminal, h]

theorem guessProfile_not_darwin (env : OsEnv) (fs : FS) (t : JSVal)
    (h : env.platform ≠ "darwin") : guessProfile env fs t = .ok JSVal.null := by
  simp [guessProfile, h]

theorem resolveGuess_not_darwin (w : World) (flags : Flags) (h : w.env.platform ≠ "darwin") :
    resolveGuess w flags = .ok ⟨flagVal flags.term, flagVal flags.profile⟩ := by
  unfold resolveGuess
  rw [guessTerminal_not_darwin w.env h]
  rw [show JSVal.orElse JSVal.undef (flagVal flags.term) = flagVal flags.term from rfl]
  by_cases ht : (flagVal flags.term).truthy = true
  · rw [if_pos ht, guessProfile_not_darwin w.env w.fs _ h]
    rfl
  · rw [if_neg ht]

/-- Claim C3: for the iterm2 terminal kind, default-preset detection
retrieves the preset collection but never reads the default-preset-name
field, so for every content of a readable preference container it returns
null — default-preset detection for iterm2 is never successful. -/
theorem claim_C3_iterm2_default_preset_never_found (env : OsEnv) (fs : FS)
    (cfg : PlistConfig)
    (hplat : env.platform = "darwin") (hcfg : fs.config .iterm2 = some cfg) :
    guessProfile env fs (JSVal.str "iterm2") = .ok JSVal.null := by
  simp [guessProfile, getConfig, hplat, hcfg]

/-- Witness for claim C3 at a concrete container holding presets and a
default window setting. -/
theorem claim_C3_witness :
    guessProfile wITermApp.env wITermApp.fs (JSVal.str "iterm2") = .ok JSVal.null :=
  claim_C3_iterm2_default_preset_never_found wITermApp.env wITermApp.fs cfgSample rfl rfl

/-- Claim C4: on every platform other than the darwin identifier the
terminal detector returns undefined (no terminal) for every value of the
TERM_PROGRAM variable; being a total function of the environment snapshot
it never raises. -/
theorem claim_C4_detect_non_darwin_none (env : OsEnv) (h : env.platform ≠ "darwin") :
    guessTerminal env = JSVal.undef :=
  guessTerminal_not_darwin env h

/-- Witness for claim C4 on linux with TERM_PROGRAM set to iTerm.app. -/
theorem claim_C4_witness : guessTerminal ⟨"linux", JSVal.str "iTerm.app"⟩ = JSVal.undef :=
  claim_C4_detect_non_darwin_none ⟨"linux", JSVal.str "iTerm.app"⟩ (by decide)

/-- Claim C5: the parser dispatch returns a parser for every member of the
closed scheme-format set (iterm2, konsole, remmina, terminal, terminator,
termite, tilda, xcfe for the xfce parser, xresources, xterm) and fails
with the unknown-parser error for every string outside that set. -/
theorem claim_C5_getParser_closed_set (s : String) :
    (s ∈ schemeFormats → ∃ pf, getParser s = .ok pf) ∧
    (s ∉ schemeFormats → getParser s = .error (.thrown ("unknown term parser: " ++ s))) := by
  constructor
  · intro h
    fin_cases h <;> exact ⟨_, rfl⟩
  · intro h
    simp only [schemeFormats, List.mem_cons, List.not_mem_nil, or_false, not_or] at h
    obtain ⟨h1, h2, h3, h4, h5, h6, h7, h8, h9, h10⟩ := h
    simp [getParser, h1, h2, h3, h4, h5, h6, h7, h8, h9, h10]

/-- Witness for claim C5: the xcfe member gets a parser, the string hyper
is outside the set and is refused. -/
theorem claim_C5_witness :
    (∃ pf, getParser "xcfe" = .ok pf) ∧
    getParser "hyper" = .error (.thrown ("unknown term parser: " ++ "hyper")) :=
  ⟨(claim_C5_getParser_closed_set "xcfe").1 (by decide),
   (claim_C5_getParser_closed_set "hyper").2 (by decide)⟩

/-- Claim C7: in a named-preset resolution (detectable term, darwin, a
presets mapping successfully read from the preference container), a preset
name absent from the mapping yields no theme rather than an error, so the
run proceeds. -/
theorem claim_C7_missing_preset_is_none (w : World) (term name : String)
    (presets : List (String × RawTheme))
    (hterm : term = "iterm2" ∨ term = "terminal")
    (hplat : w.env.platform = "darwin")
    (hpresets : getPresets w.fs (JSVal.str term) = .ok (some presets))
    (hmiss : jsLookup presets name = none) :
    extractTheme w (JSVal.str term) (JSVal.str name) = .ok none := by
  cases hterm with
  | inl h =>
    subst h
    simp [extractTheme, JSVal.asString, hplat, hpresets, hmiss, getParser]
  | inr h =>
    subst h
    simp [extractTheme, JSVal.asString, hplat, hpresets, hmiss, getParser]

/-- Witness for claim C7: the name Nonexistent is missing from the sample
terminal presets. -/
theorem claim_C7_witness :
    extractTheme wTerminalApp (JSVal.str "terminal") (JSVal.str "Nonexistent") = .ok none :=
  claim_C7_missing_preset_is_none wTerminalApp "terminal" "Nonexistent"
    [("Basic", "blobTerminal")] (Or.inr rfl) rfl (by decide) (by decide)

/-- Claim C8: theme resolution is a deterministic, idempotent pure
function of its inputs — for one fixed world snapshot (environment,
filesystem contents, external parsers) and fixed guess and flags,
evaluating the resolver twice yields identical results. -/
theorem claim_C8_resolution_deterministic (w : World) (flags : Flags) (g : Guesses) :
    getTheme w g = getTheme w g ∧ themeSourceOf g = themeSourceOf g ∧
    mainResolve w flags = mainResolve w flags :=
  ⟨rfl, rfl, rfl⟩

/-- Claim C10: the existence check for a path-like profile tests the
profile joined onto the current working directory even when the profile is
absolute: joining /tmp/theme.txt onto /home/user yields
/home/user/tmp/theme.txt, so on a filesystem where the absolute path
exists but the joined path does not, the run fails with the missing-file
usage error although the explicit profile names an existing, readable
file. -/
theorem claim_C10_absolute_profile_joined_onto_cwd :
    wAbsFile.fs.existsSync "/tmp/theme.txt" = true ∧
    wAbsFile.fs.readFile "/tmp/theme.txt" = some "theme file contents" ∧
    pathJoin wAbsFile.fs.cwd "/tmp/theme.txt" = "/home/user/tmp/theme.txt" ∧
    wAbsFile.fs.existsSync (pathJoin wAbsFile.fs.cwd "/tmp/theme.txt") = false ∧
    mainResolve wAbsFile { term := some "xterm", profile := some "/tmp/theme.txt" } =
      .error (.usage "svg-term: /tmp/theme.txt must be readable file but was not found") :=
  ⟨by decide, by decide, by decide, by decide, by decide⟩

/-- Claim C9: whenever terminal detection succeeds (its result is truthy),
the detected terminal wins over the explicitly supplied term flag, and
when default-profile detection also succeeds the detected profile wins
over the explicitly supplied profile flag: the resolved pair is
independent of the flags. -/
theorem claim_C9_detection_overrides_flags (w : World) (flags : Flags) (v gp : JSVal)
    (hdet : guessTerminal w.env = v) (hv : v.truthy = true)
    (hgp : guessProfile w.env w.fs v = .ok gp) :
    resolveGuess w flags = .ok ⟨v, JSVal.orElse gp (flagVal flags.profile)⟩ ∧
    (gp.truthy = true → resolveGuess w flags = .ok ⟨v, gp⟩) := by
  have hterm : JSVal.orElse (guessTerminal w.env) (flagVal flags.term) = v := by
    rw [hdet]; exact orElse_truthy v _ hv
  constructor
  · unfold resolveGuess
    rw [hterm, if_pos hv, hgp]
  · intro hgpt
    unfold resolveGuess
    rw [hterm, if_pos hv, hgp]
    show Except.ok (Guesses.mk v (JSVal.orElse gp (flagVal flags.profile))) =
      Except.ok (Guesses.mk v gp)
    rw [orElse_truthy gp _ hgpt]

/-- Witness for claim C9: on darwin inside Apple Terminal with default
preset Basic, explicit --term=xterm and --profile=./mine.txt are both
ignored. -/
theorem claim_C9_witness :
    resolveGuess wTerminalApp { term := some "xterm", profile := some "./mine.txt" } =
      .ok ⟨JSVal.str "terminal", JSVal.str "Basic"⟩ :=
  (claim_C9_detection_overrides_flags wTerminalApp
    { term := some "xterm", profile := some "./mine.txt" }
    (JSVal.str "terminal") (JSVal.str "Basic")
    (by decide) (by decide) (by decide)).2 (by decide)

/-- The flags of the C1 counterexample: both term and profile explicitly
supplied. -/
def flagsBothExplicit : Flags := { term := some "xterm", profile := some "preset1" }

/-- Claim C1 counterexample: on darwin inside iTerm2, with --term=xterm
and --profile=preset1 both supplied, the resolved pair keys the preset by
the detected terminal iterm2, not by the explicit term xterm, so the
resolved theme source is not determined by the explicit values. -/
theorem claim_C1_counterexample :
    flagsBothExplicit.term = some "xterm" ∧ flagsBothExplicit.profile = some "preset1" ∧
    resolveGuess wITermApp flagsBothExplicit =
      .ok ⟨JSVal.str "iterm2", JSVal.str "preset1"⟩ ∧
    themeSourceOf ⟨JSVal.str "iterm2", JSVal.str "preset1"⟩ ≠
      ThemeSource.namedPreset "xterm" "preset1" :=
  ⟨rfl, rfl, by decide, by decide⟩

/-- Claim C1 (amended): when both an explicit term and an explicit profile
are supplied (both non-empty), terminal detection yields no terminal, and
default-profile detection for the explicit term yields nothing truthy, the
resolved guess is exactly the explicit pair and the theme source is
determined by it: a profile beginning with ~, / or . is a file path whose
contents are parsed by the parser for the explicit term, and any other
profile is a named preset keyed by the explicit term. -/
theorem claim_C1_explicit_flags_determine_source (w : World) (flags : Flags)
    (t p : String) (gp : JSVal)
    (hterm : flags.term = some t) (hprof : flags.profile = some p)
    (ht : t ≠ "") (hp : p ≠ "")
    (hdet : (guessTerminal w.env).truthy = false)
    (hgp : guessProfile w.env w.fs (JSVal.str t) = .ok gp)
    (hgpf : gp.truthy = false) :
    resolveGuess w flags = .ok ⟨JSVal.str t, JSVal.str p⟩ ∧
    themeSourceOf ⟨JSVal.str t, JSVal.str p⟩ =
      (if isFileProfile p then ThemeSource.filePath t p else ThemeSource.namedPreset t p) ∧
    (isFileProfile p = true →
      getTheme w ⟨JSVal.str t, JSVal.str p⟩ =
        (parseTheme w (JSVal.str t) (JSVal.str p)).map some) ∧
    (isFileProfile p = false →
      getTheme w ⟨JSVal.str t, JSVal.str p⟩ =
        extractTheme w (JSVal.str t) (JSVal.str p)) := by
  have htt : (JSVal.str t).truthy = true := by simp [JSVal.truthy, ht]
  have hpt : (JSVal.str p).truthy = true := by simp [JSVal.truthy, hp]
  have hres : resolveGuess w flags = .ok ⟨JSVal.str t, JSVal.str p⟩ := by
    unfold resolveGuess
    rw [hterm, show flagVal (some t) = JSVal.str t from rfl,
      orElse_falsy _ _ hdet, if_pos htt, hgp, hprof,
      show flagVal (some p) = JSVal.str p from rfl]
    show Except.ok (Guesses.mk (JSVal.str t) (JSVal.orElse gp (JSVal.str p))) = _
    rw [orElse_falsy gp _ hgpf]
  have hnn : ¬(Guesses.term ⟨JSVal.str t, JSVal.str p⟩ = JSVal.null ∨
      Guesses.profile ⟨JSVal.str t, JSVal.str p⟩ = JSVal.null) := by
    simp
  have hor : JSVal.orElse (JSVal.str p) (JSVal.str "") = JSVal.str p :=
    orElse_truthy _ _ hpt
  refine ⟨hres, ?_, ?_, ?_⟩
  · unfold themeSourceOf
    rw [if_neg hnn]
    simp only [hor, JSVal.asString]
  · intro hf
    unfold getTheme
    rw [if_neg hnn]
    simp only [hor, JSVal.asString, hf, if_pos]
    cases parseTheme w (JSVal.str t) (JSVal.str p) <;> rfl
  · intro hf
    unfold getTheme
    rw [if_neg hnn]
    simp only [hor, JSVal.asString, hf]
    rw [if_neg (by simp)]

/-- Witness for claim C1 (amended) on linux with --term=xterm and a
path-like --profile. -/
theorem claim_C1_witness :
    resolveGuess wLinux { term := some "xterm", profile := some "./theme.txt" } =
      .ok ⟨JSVal.str "xterm", JSVal.str "./theme.txt"⟩ :=
  (claim_C1_explicit_flags_determine_source wLinux
    { term := some "xterm", profile := some "./theme.txt" }
    "xterm" "./theme.txt" JSVal.null rfl rfl (by decide) (by decide)
    (by decide) (by decide) (by decide)).1

/-- The flags of the C2 counterexample: only --term supplied. -/
def flagsTermOnly : Flags := { term := some "xterm" }

/-- Claim C2 counterexample: on darwin inside Apple Terminal with a
default preset configured, supplying --term without --profile does not
fail: detection fills both halves of the resolved pair, the pair check
passes, and the run resolves a theme. -/
theorem claim_C2_counterexample :
    flagsTermOnly.term = some "xterm" ∧ flagsTermOnly.profile = none ∧
    mainResolve wTerminalApp flagsTermOnly = .ok (some schemeSample) :=
  ⟨rfl, rfl, by decide⟩

/-- Claim C2 (amended): supplying exactly one of --term and --profile is a
usage error (fatal, non-zero exit) before any theme is resolved, in every
environment in which detection cannot fill the missing half — in
particular on every platform other than darwin, for every value of the
supplied flag. -/
theorem claim_C2_single_flag_usage_error (w : World) (flags : Flags)
    (hplat : w.env.platform ≠ "darwin")
    (hone : flags.term.isSome ≠ flags.profile.isSome) :
    ∃ msg, mainResolve w flags = .error (.usage msg) := by
  by_cases hin : w.inputText = ""
  · exact ⟨"svg-term: either stdin or --cast are required", by simp [mainResolve, hin]⟩
  · by_cases hmal : malformedMsgs flags = []
    · have hres := resolveGuess_not_darwin w flags hplat
      have hstep : mainResolve w flags =
          mainChecks w flags ⟨flagVal flags.term, flagVal flags.profile⟩ := by
        unfold mainResolve
        rw [if_neg hin, if_neg (by simp [hmal]), hres]
      rw [hstep]
      cases hft : flags.term with
      | none =>
        cases hfp : flags.profile with
        | none => rw [hft, hfp] at hone; simp at hone
        | some p =>
          unfold mainChecks
          rw [if_pos ⟨Or.inr (by simp [hfp]), by simp [unsatisfiedOf, flagVal, JSVal.truthy]⟩]
          exact ⟨_, rfl⟩
      | some t =>
        cases hfp : flags.profile with
        | none =>
          unfold mainChecks
          rw [if_pos ⟨Or.inl (by simp [hft]), by
            cases htt : (JSVal.str t).truthy <;>
              simp [unsatisfiedOf, flagVal, JSVal.truthy, htt]⟩]
          exact ⟨_, rfl⟩
        | some p => rw [hft, hfp] at hone; simp at hone
    · exact ⟨"svg-term: " ++ joinWith "\n" (malformedMsgs flags),
        by rw [mainResolve, if_neg hin, if_pos hmal]⟩

/-- Witness for claim C2 (amended) on linux with only --term supplied. -/
theorem claim_C2_witness :
    ∃ msg, mainResolve wLinux { term := some "xterm" } = .error (.usage msg) :=
  claim_C2_single_flag_usage_error wLinux { term := some "xterm" } (by decide) (by decide)

/-- The flags of the C6 counterexample: only a path-like --profile
supplied, naming a missing file. -/
def flagsProfileOnly : Flags := { profile := some "./missing-file.txt" }

/-- Claim C6 counterexample: on darwin inside Apple Terminal with a
default preset configured, an explicitly supplied path-like profile naming
a file that exists nowhere on the filesystem does not fail: the detected
default preset replaces the explicit profile in the resolved pair, the
existence check is skipped, and the run resolves a theme. -/
theorem claim_C6_counterexample :
    flagsProfileOnly.profile = some "./missing-file.txt" ∧
    isFileProfile "./missing-file.txt" = true ∧
    wTerminalApp.fs.existsSync
      (pathJoin wTerminalApp.fs.cwd "./missing-file.txt") = false ∧
    mainResolve wTerminalApp flagsProfileOnly = .ok (some schemeSample) :=
  ⟨rfl, by decide, by decide, by decide⟩

/-- Claim C6 (amended): when the earlier validations pass (input present,
numeric flags well-formed, the guess resolves with a truthy term, the term
flag recognized when present) and the resolved profile equals the
explicitly supplied one (no detected default preset overrides it), a
path-like explicit profile with no file at the location joined onto the
working directory fails with a usage error citing the missing path, before
any theme parsing or rendering. -/
theorem claim_C6_missing_file_profile_usage_error (w : World) (flags : Flags)
    (guess : Guesses) (p : String)
    (hin : w.inputText ≠ "")
    (hmal : malformedMsgs flags = [])
    (hres : resolveGuess w flags = .ok guess)
    (hprof : flags.profile = some p)
    (hgprof : guess.profile = JSVal.str p)
    (hgterm : guess.term.truthy = true)
    (hfile : isFileProfile p = true)
    (hterm : flags.term.isSome = true → flags.term.getD "" ∈ termSchemesKeys)
    (hmiss : w.fs.existsSync (pathJoin w.fs.cwd p) = false) :
    mainResolve w flags =
      .error (.usage ("svg-term: " ++ p ++ " must be readable file but was not found")) := by
  have hp : p ≠ "" := by
    intro h
    rw [h] at hfile
    exact absurd hfile (by decide)
  have hpt : (JSVal.str p).truthy = true := by simp [JSVal.truthy, hp]
  have hstep : mainResolve w flags = mainChecks w flags guess := by
    unfold mainResolve
    rw [if_neg hin, if_neg (by simp [hmal]), hres]
  rw [hstep]
  unfold mainChecks
  rw [if_neg (by
    intro hcontra
    apply hcontra.2
    simp [unsatisfiedOf, hgterm, hgprof, hpt])]
  rw [if_neg (by
    intro hcontra
    exact hcontra.2 (hterm hcontra.1))]
  rw [hgprof]
  rw [show JSVal.orElse (JSVal.str p) (JSVal.str "") = JSVal.str p from orElse_truthy _ _ hpt]
  rw [if_pos ⟨by simpa [JSVal.asString] using hfile,
    by simp [hprof],
    by rw [hprof]; simpa using hmiss⟩]
  rw [hprof]
  rfl

/-- Witness for claim C6 (amended) on linux with --term=xterm and a
path-like --profile naming a file missing from the joined location. -/
theorem claim_C6_witness :
    mainResolve wLinux { term := some "xterm", profile := some "./theme.txt" } =
      .error (.usage ("svg-term: " ++ "./theme.txt" ++
        " must be readable file but was not found")) :=
  claim_C6_missing_file_profile_usage_error wLinux
    { term := some "xterm", profile := some "./theme.txt" }
    ⟨JSVal.str "xterm", JSVal.str "./theme.txt"⟩ "./theme.txt"
    (by decide) (by decide) (by decide) rfl rfl (by decide) (by decide)
    (by decide) (by decide)

end SvgTerm
